import Mathlib

/-!
Verification of the credential-lifecycle and response-extraction core of the
qagenie AI service (`src/ai_service/app.py`), shallowly embedded in Lean 4.

The embedding covers:
* `TokenManager` (`refresh_token`, `get_token`) — bearer-token refresh policy;
* `WatsonXService.generate_text` — request construction and response handling;
* the three-tier JSON extraction chain of `analyze_recording`
  (direct `json.loads`, fenced ` ```json ` block, balanced-brace scan).

Python floats for time are modelled as rationals (`ℚ`); raised exceptions are
modelled as `Except.error`; optional JSON fields as `Option`.
-/

/-- JSON values as produced by Python `json.loads`.  Numbers keep their raw
lexeme (no arithmetic on them is ever performed by the code under study). -/
inductive JValue where
  | jnull : JValue
  | jbool : Bool → JValue
  | jnum : String → JValue
  | jstr : String → JValue
  | jarr : List JValue → JValue
  | jobj : List (String × JValue) → JValue
  deriving Repr

/-- Whitespace accepted by Python's JSON decoder (space, tab, LF, CR). -/
def isJsonWs (c : Char) : Bool :=
  c = ' ' || c = '\t' || c = '\n' || c = '\r'

/-- Drop leading JSON whitespace. -/
def skipWs : List Char → List Char
  | [] => []
  | c :: cs => if isJsonWs c then skipWs cs else c :: cs

/-- Hexadecimal digit value, for `\uXXXX` escapes. -/
def hexVal (c : Char) : Option Nat :=
  if '0' ≤ c ∧ c ≤ '9' then some (c.toNat - '0'.toNat)
  else if 'a' ≤ c ∧ c ≤ 'f' then some (c.toNat - 'a'.toNat + 10)
  else if 'A' ≤ c ∧ c ≤ 'F' then some (c.toNat - 'A'.toNat + 10)
  else none

/-- Body of a JSON string literal, after the opening quote: returns the decoded
characters and the input following the closing quote.  Mirrors Python's strict
decoder: escapes are decoded, raw control characters are rejected.  Fuel-indexed
(every step consumes input, so fuel `length + 1` always suffices). -/
def parseStrBody : Nat → List Char → Option (List Char × List Char)
  | 0, _ => none
  | _ + 1, [] => none
  | fuel + 1, c :: cs =>
    if c = '"' then some ([], cs)
    else if c = '\\' then
      match cs with
      | [] => none
      | e :: cs2 =>
        let dec : Option (Char × List Char) :=
          if e = '"' then some ('"', cs2)
          else if e = '\\' then some ('\\', cs2)
          else if e = '/' then some ('/', cs2)
          else if e = 'b' then some ('\x08', cs2)
          else if e = 'f' then some ('\x0C', cs2)
          else if e = 'n' then some ('\n', cs2)
          else if e = 'r' then some ('\r', cs2)
          else if e = 't' then some ('\t', cs2)
          else if e = 'u' then
            match cs2 with
            | a :: b :: c3 :: d :: cs3 =>
              match hexVal a, hexVal b, hexVal c3, hexVal d with
              | some x, some y, some z, some w =>
                some (Char.ofNat (((x * 16 + y) * 16 + z) * 16 + w), cs3)
              | _, _, _, _ => none
            | _ => none
          else none
        match dec with
        | some (ch, rest) =>
          match parseStrBody fuel rest with
          | some (content, r) => some (ch :: content, r)
          | none => none
        | none => none
    else if c.toNat < 32 then none
    else
      match parseStrBody fuel cs with
      | some (content, r) => some (c :: content, r)
      | none => none

/-- Longest digit prefix. -/
def takeDigits : List Char → (List Char × List Char)
  | [] => ([], [])
  | c :: cs =>
    if c.isDigit then
      let (ds, r) := takeDigits cs
      (c :: ds, r)
    else ([], c :: cs)

/-- JSON number lexeme starting at the head of the input (which must be a
digit or `-`): the lexeme's characters and the rest.  Enforces JSON's
leading-zero rule. -/
def parseNumLex (cs : List Char) : Option (List Char × List Char) :=
  let (sign, cs1) :=
    match cs with
    | '-' :: r => (['-'], r)
    | r => (([] : List Char), r)
  match cs1 with
  | [] => none
  | c :: r =>
    if ¬ c.isDigit then none
    else
      let (intPart, cs2) :=
        if c = '0' then (['0'], r)
        else
          let (ds, r2) := takeDigits r
          (c :: ds, r2)
      let (fracPart, cs3) :=
        match cs2 with
        | '.' :: r2 =>
          let (ds, r3) := takeDigits r2
          if ds = [] then ((none : Option (List Char)), '.' :: r2)
          else (some ('.' :: ds), r3)
        | r2 => (none, r2)
      match fracPart with
      | none =>
        match cs2 with
        | '.' :: _ => none
        | _ => expPart sign intPart [] cs3
      | some fp => expPart sign intPart fp cs3
where
  expPart (sign intPart fracPart : List Char) (cs : List Char) :
      Option (List Char × List Char) :=
    match cs with
    | e :: r =>
      if e = 'e' ∨ e = 'E' then
        let (sgn, r1) :=
          match r with
          | '+' :: r2 => (['+'], r2)
          | '-' :: r2 => (['-'], r2)
          | r2 => (([] : List Char), r2)
        let (ds, r2) := takeDigits r1
        if ds = [] then none
        else some (sign ++ intPart ++ fracPart ++ e :: sgn ++ ds, r2)
      else some (sign ++ intPart ++ fracPart, e :: r)
    | [] => some (sign ++ intPart ++ fracPart, [])

mutual

/-- One JSON value starting at the head of the (whitespace-stripped) input,
with the unconsumed rest.  Fuel-indexed mutual recursion; values, object
members and array items each consume fuel. -/
def parseVal : Nat → List Char → Option (JValue × List Char)
  | 0, _ => none
  | _ + 1, [] => none
  | fuel + 1, c :: cs =>
    if c = '{' then
      match skipWs cs with
      | '}' :: r => some (.jobj [], r)
      | r => (parseMembers fuel r).map (fun (ms, rest) => (.jobj ms, rest))
    else if c = '[' then
      match skipWs cs with
      | ']' :: r => some (.jarr [], r)
      | r => (parseItems fuel r).map (fun (xs, rest) => (.jarr xs, rest))
    else if c = '"' then
      (parseStrBody (cs.length + 1) cs).map (fun (s, rest) => (.jstr (String.mk s), rest))
    else if c = 't' then
      match cs with
      | 'r' :: 'u' :: 'e' :: r => some (.jbool true, r)
      | _ => none
    else if c = 'f' then
      match cs with
      | 'a' :: 'l' :: 's' :: 'e' :: r => some (.jbool false, r)
      | _ => none
    else if c = 'n' then
      match cs with
      | 'u' :: 'l' :: 'l' :: r => some (.jnull, r)
      | _ => none
    else if c = '-' ∨ c.isDigit then
      (parseNumLex (c :: cs)).map (fun (lex, rest) => (.jnum (String.mk lex), rest))
    else none

/-- Members of a JSON object, starting at the first key (no leading `}`
case: the empty object is handled by `parseVal`).  Returns the member list
and the input after the closing `}`. -/
def parseMembers : Nat → List Char → Option (List (String × JValue) × List Char)
  | 0, _ => none
  | fuel + 1, cs =>
    match cs with
    | '"' :: cs1 =>
      match parseStrBody (cs1.length + 1) cs1 with
      | none => none
      | some (key, cs2) =>
        match skipWs cs2 with
        | ':' :: cs3 =>
          match parseVal fuel (skipWs cs3) with
          | none => none
          | some (v, cs4) =>
            match skipWs cs4 with
            | ',' :: cs5 =>
              (parseMembers fuel (skipWs cs5)).map
                (fun (ms, rest) => ((String.mk key, v) :: ms, rest))
            | '}' :: cs5 => some ([(String.mk key, v)], cs5)
            | _ => none
        | _ => none
    | _ => none

/-- Items of a JSON array, starting at the first item (the empty array is
handled by `parseVal`).  Returns the items and the input after `]`. -/
def parseItems : Nat → List Char → Option (List JValue × List Char)
  | 0, _ => none
  | fuel + 1, cs =>
    match parseVal fuel cs with
    | none => none
    | some (v, cs1) =>
      match skipWs cs1 with
      | ',' :: cs2 => (parseItems fuel (skipWs cs2)).map (fun (xs, rest) => (v :: xs, rest))
      | ']' :: cs2 => some ([v], cs2)
      | _ => none

end

/-- Model of Python `json.loads` as used by the extraction code: leading and
trailing whitespace is accepted, any other trailing data (or a malformed
document) makes the whole call fail. -/
def jsonLoadsChars (cs : List Char) : Option JValue :=
  match parseVal (2 * cs.length + 2) (skipWs cs) with
  | some (v, rest) => if skipWs rest = [] then some v else none
  | none => none

/-- `json.loads` on a `String`. -/
def jsonLoads (s : String) : Option JValue :=
  jsonLoadsChars s.data

/-- Whitespace class of Python's regex `\s` (ASCII range). -/
def isReWs (c : Char) : Bool :=
  c = ' ' || c = '\t' || c = '\n' || c = '\r' || c = '\x0C' || c = '\x0B'

/-- Drop leading regex whitespace (`\s*`). -/
def skipReWs : List Char → List Char
  | [] => []
  | c :: cs => if isReWs c then skipReWs cs else c :: cs

/-- Does `pat` occur at the head of `cs`? -/
def headMatch : List Char → List Char → Bool
  | [], _ => true
  | _ :: _, [] => false
  | p :: ps, c :: cs => p = c && headMatch ps cs

/-- Index of the first occurrence of `pat` in `cs` (substring search). -/
def findSub (pat : List Char) : List Char → Option Nat
  | [] => if pat = [] then some 0 else none
  | c :: cs =>
    if headMatch pat (c :: cs) then some 0
    else (findSub pat cs).map (· + 1)

/-- The regex `` ```json\n([\s\S]*?)\n``` `` applied with `re.search`: the
leftmost position where the whole pattern matches wins, and the non-greedy
group takes the shortest content.  Returns the captured group. -/
def fencedGroup : List Char → Option (List Char)
  | [] => none
  | c :: cs =>
    if headMatch ('`' :: '`' :: '`' :: 'j' :: 's' :: 'o' :: 'n' :: '\n' :: []) (c :: cs) then
      let body := (c :: cs).drop 8
      match findSub ('\n' :: '`' :: '`' :: '`' :: []) body with
      | some j => some (body.take j)
      | none => fencedGroup cs
    else fencedGroup cs

/-- Does the regex `\{\s*"test_cases":\s*\[` match at the head of `cs`? -/
def tcPatternAt (cs : List Char) : Bool :=
  match cs with
  | '{' :: rest =>
    let r1 := skipReWs rest
    if headMatch ('"' :: 't' :: 'e' :: 's' :: 't' :: '_' :: 'c' :: 'a' :: 's' :: 'e' :: 's'
        :: '"' :: ':' :: []) r1 then
      match skipReWs (r1.drop 13) with
      | '[' :: _ => true
      | _ => false
    else false
  | _ => false

/-- `re.search(r'\{\s*"test_cases":\s*\[', response).start()`: index of the
first position where the pattern matches. -/
def findTcStart : List Char → Option Nat
  | [] => none
  | c :: cs =>
    if tcPatternAt (c :: cs) then some 0
    else (findTcStart cs).map (· + 1)

/-- The balanced-brace loop of `analyze_recording`: walking `response[start_idx:]`
with a counter that increments on `\x7b` and decrements on `\x7d`, breaking the
instant the counter returns to zero; returns the exclusive end offset `i + 1`
relative to the slice, or `none` when the loop exhausts the text without the
counter reaching zero at a closing brace. -/
def braceScan : List Char → Int → Nat → Option Nat
  | [], _, _ => none
  | c :: cs, openBraces, i =>
    if c = '{' then braceScan cs (openBraces + 1) (i + 1)
    else if c = '}' then
      if openBraces - 1 = 0 then some (i + 1)
      else braceScan cs (openBraces - 1) (i + 1)
    else braceScan cs openBraces (i + 1)

/-- Failure modes of the extraction block in `analyze_recording`:
an uncaught `json.JSONDecodeError` propagating out of tier 2 or tier 3, or the
explicitly raised `HTTPException(500, detail)`. -/
inductive ExtractErr where
  | jsonDecodeError : ExtractErr
  | httpError : String → ExtractErr
  deriving Repr, DecidableEq

/-- The response-parsing block of `analyze_recording`
(`src/ai_service/app.py` lines 1146–1175): tier 1 `json.loads` on the whole
text; tier 2 `json.loads` on the group of `` ```json\n([\s\S]*?)\n``` ``; tier 3
balanced-brace scan from the first match of `\{\s*"test_cases":\s*\[`.
Raised exceptions are modelled as `Except.error`. -/
def extractRecording (response : String) : Except ExtractErr JValue :=
  match jsonLoads response with
  | some v => .ok v
  | none =>
    match fencedGroup response.data with
    | some content =>
      match jsonLoadsChars content with
      | some v => .ok v
      | none => .error .jsonDecodeError
    | none =>
      match findTcStart response.data with
      | some startIdx =>
        match braceScan (response.data.drop startIdx) 0 0 with
        | some endRel =>
          match jsonLoadsChars ((response.data.drop startIdx).take endRel) with
          | some v => .ok v
          | none => .error .jsonDecodeError
        | none => .error (.httpError "Failed to parse model response as JSON")
      | none => .error (.httpError "Failed to parse model response as JSON")

/-- The identity endpoint's answer as seen by `refresh_token`: HTTP status and
the two JSON fields it reads (`none` = field absent from the body). -/
structure IamResponse where
  status : Nat
  access_token : Option String
  expires_in : Option ℚ
  deriving Repr

/-- Mutable state of `TokenManager`: `self.token` (Python `None` is `none`)
and `self.expiry_time` (a float, modelled as `ℚ`; initially `0`). -/
structure TMState where
  token : Option String
  expiry_time : ℚ
  deriving Repr

/-- `TokenManager.refresh_token` (`src/ai_service/app.py` lines 154–183),
given the current time and the identity endpoint's answer (`none` = transport
failure / raised exception).  Returns the Python return value and the
post-call state: a non-200 status or an exception leaves the state untouched
and returns `False`; on a 200 the token becomes `token_data.get("access_token")`
and the expiry becomes `time.time() + expires_in * 0.9` with `expires_in`
defaulting to 3600. -/
def refresh_token (s : TMState) (now : ℚ) (resp : Option IamResponse) :
    Bool × TMState :=
  match resp with
  | none => (false, s)
  | some r =>
    if r.status ≠ 200 then (false, s)
    else
      (true,
        { token := r.access_token,
          expiry_time := now + (r.expires_in.getD 3600) * (9 / 10) })

/-- `TokenManager.get_token` (`src/ai_service/app.py` lines 185–189): refresh
when `time.time() > self.expiry_time`, then return `self.token`.  Result:
the returned token, the post-call state, and whether a refresh was triggered
(`resp` is the identity endpoint's answer consumed if one is). -/
def get_token (s : TMState) (now : ℚ) (resp : Option IamResponse) :
    Option String × TMState × Bool :=
  if now > s.expiry_time then
    let (_, s1) := refresh_token s now resp
    (s1.token, s1, true)
  else (s.token, s, false)

/-- `TokenManager.__init__`: `token = None`, `expiry_time = 0`, then one
synchronous `refresh_token`. -/
def tokenManagerInit (now : ℚ) (resp : Option IamResponse) : TMState :=
  (refresh_token { token := none, expiry_time := 0 } now resp).2

/-- A trace of `get_token` calls: fold the state through the events, each an
observation time paired with the identity endpoint's answer were a refresh to
be triggered. -/
def runTrace (s : TMState) : List (ℚ × Option IamResponse) → TMState
  | [] => s
  | e :: es => runTrace (get_token s e.1 e.2).2.1 es

/-- The generation parameters dictionary (`max_new_tokens`, `temperature`,
`top_p`, `min_new_tokens`). -/
structure GenParams where
  max_new_tokens : Nat
  temperature : ℚ
  top_p : ℚ
  min_new_tokens : Nat
  deriving Repr, DecidableEq

/-- The defaults `generate_text` installs when the caller passes no
parameters. -/
def defaultGenParams : GenParams :=
  { max_new_tokens := 4000, temperature := 2 / 10, top_p := 95 / 100,
    min_new_tokens := 100 }

/-- The JSON payload `generate_text` posts to the generation endpoint;
`system_prompt = none` means the key is absent from the body. -/
structure GenPayload where
  input : String
  model_id : String
  project_id : String
  parameters : GenParams
  system_prompt : Option String
  deriving Repr, DecidableEq

/-- One element of the `results` list of the generation endpoint's response
body (`none` = no `generated_text` key). -/
structure ResultItem where
  generated_text : Option String
  deriving Repr, DecidableEq

/-- The generation endpoint's answer as seen by `generate_text`: HTTP status
and the `results` key of the JSON body (`none` = key absent). -/
structure GenResponse where
  status : Nat
  results : Option (List ResultItem)
  deriving Repr, DecidableEq

/-- Exceptions raised by `generate_text` (all re-raised by its
`except` clause). -/
inductive GenErr where
  | noToken : GenErr
  | apiFailed : Nat → GenErr
  | indexError : GenErr
  | transport : GenErr
  deriving Repr, DecidableEq

/-- The payload construction of `generate_text` (`src/ai_service/app.py`
lines 68–87): defaults installed when `params` is `None`, fixed model id,
`project_id` from configuration, and `system_prompt` added only when the
caller's value is truthy (so Python's empty string is treated like `None`). -/
def buildPayload (prompt : String) (system_prompt : Option String)
    (params : Option GenParams) (space_id : String) : GenPayload :=
  { input := prompt
    model_id := "ibm/granite-13b-chat-v2"
    project_id := space_id
    parameters := params.getD defaultGenParams
    system_prompt :=
      match system_prompt with
      | some sp => if sp = "" then none else some sp
      | none => none }

/-- `WatsonXService.generate_text` (`src/ai_service/app.py` lines 54–111),
given the token `self.token_manager.get_token()` produced and the generation
endpoint's answer (`none` = transport failure).  Returns the outcome
(`Except.error` models a raised exception) and the payload actually posted
(`none` = no HTTP request was issued).  Python truthiness: an empty-string
token fails the `if not token` check, an empty-string `system_prompt` fails
the `if system_prompt` check, and `params=None` fails `if not params`. -/
def generate_text (token : Option String) (prompt : String)
    (system_prompt : Option String) (params : Option GenParams)
    (space_id : String) (resp : Option GenResponse) :
    Except GenErr String × Option GenPayload :=
  match token with
  | none => (.error .noToken, none)
  | some t =>
    if t = "" then (.error .noToken, none)
    else
      let payload := buildPayload prompt system_prompt params space_id
      match resp with
      | none => (.error .transport, some payload)
      | some r =>
        if r.status ≠ 200 then (.error (.apiFailed r.status), some payload)
        else
          match r.results.getD [{ generated_text := none }] with
          | [] => (.error .indexError, some payload)
          | item :: _ => (.ok (item.generated_text.getD ""), some payload)

/-- The §8 nested-structure example input (`Result: ` prose followed by the
full test-case object). -/
def exNested : String :=
  "Result: \x7b\"test_cases\":[\x7b\"id\":\"TC001\",\"steps\":[\x7b\"step\":\"1\"\x7d]\x7d],\"summary\":\"ok\"\x7d"

/-- Parse tree of the full nested object in `exNested`. -/
def exNestedVal : JValue :=
  .jobj [("test_cases",
            .jarr [.jobj [("id", .jstr "TC001"),
                          ("steps", .jarr [.jobj [("step", .jstr "1")]])]]),
         ("summary", .jstr "ok")]

/-- Claim C1: the extractor tries its three strategies in order with first
success winning — direct parse, then the ```json fenced block, then the
balanced brace scan from the first `\x7b"test_cases":[` occurrence (counter up
on `\x7b`, down on `\x7d`, substring complete the instant it returns to zero) —
and on the §8 nested example the scan extracts the full object unmodified. -/
theorem extraction_three_tier_order :
    (∀ s v, jsonLoads s = some v → extractRecording s = .ok v) ∧
    (∀ s c v, jsonLoads s = none → fencedGroup s.data = some c →
      jsonLoadsChars c = some v → extractRecording s = .ok v) ∧
    (∀ s i e v, jsonLoads s = none → fencedGroup s.data = none →
      findTcStart s.data = some i →
      braceScan (s.data.drop i) 0 0 = some e →
      jsonLoadsChars ((s.data.drop i).take e) = some v →
      extractRecording s = .ok v) ∧
    extractRecording exNested = .ok exNestedVal := by
  refine ⟨?_, ?_, ?_, ?_⟩
  · intro s v h
    simp [extractRecording, h]
  · intro s c v h1 h2 h3
    simp [extractRecording, h1, h2, h3]
  · intro s i e v h1 h2 h3 h4 h5
    simp [extractRecording, h1, h2, h3, h4, h5]
  · rfl

/-- Witness for C1: tier 1 on a compliant response, and tier 3 on a
prose-wrapped `test_cases` object, at concrete inputs. -/
theorem extraction_three_tier_order_witness :
    extractRecording "\x7b\"ok\":true\x7d" = .ok (.jobj [("ok", .jbool true)]) ∧
    extractRecording "x \x7b\"test_cases\":[]\x7d y" =
      .ok (.jobj [("test_cases", .jarr [])]) :=
  ⟨extraction_three_tier_order.1 "\x7b\"ok\":true\x7d" _ rfl,
   extraction_three_tier_order.2.2.1 "x \x7b\"test_cases\":[]\x7d y" 2 17 _
     rfl rfl rfl rfl rfl⟩

/-- Counterexample to claim C2: on `Sure, here you go: \x7b"a":1\x7d Hope that
helps!` the extraction block raises the generic HTTP 500 parse failure — it
does not produce the structured value `\x7b"a":1\x7d` that direct extraction of
the bare JSON yields. -/
theorem tier3_bare_object_cex :
    extractRecording "Sure, here you go: \x7b\"a\":1\x7d Hope that helps!" =
      .error (.httpError "Failed to parse model response as JSON") ∧
    extractRecording "\x7b\"a\":1\x7d" = .ok (.jobj [("a", .jnum "1")]) ∧
    (Except.error (ExtractErr.httpError "Failed to parse model response as JSON") ≠
      (Except.ok (JValue.jobj [("a", JValue.jnum "1")]) : Except ExtractErr JValue)) :=
  ⟨rfl, rfl, fun h => Except.noConfusion h⟩

/-- Claim C2 amended: the tier-3 balanced scan fires only when the text
matches the opening pattern `\x7b\s*"test_cases":\s*\[`; the input
`Sure, here you go: \x7b"a":1\x7d Hope that helps!` contains no such pattern
(and defeats tiers 1 and 2), so extraction fails with the generic HTTP 500
parse error, while the bare `\x7b"a":1\x7d` still parses via tier 1. -/
theorem tier3_bare_object_not_extracted :
    findTcStart ("Sure, here you go: \x7b\"a\":1\x7d Hope that helps!").data = none ∧
    extractRecording "Sure, here you go: \x7b\"a\":1\x7d Hope that helps!" =
      .error (.httpError "Failed to parse model response as JSON") ∧
    extractRecording "\x7b\"a\":1\x7d" = .ok (.jobj [("a", .jnum "1")]) :=
  ⟨rfl, rfl, rfl⟩

/-- Counterexample to claim C3: at the exact boundary `now = expiry_time`
(here both 100), `now ≥ expiresAt` holds yet `get_token` triggers no refresh —
the code's guard is the strict `time.time() > self.expiry_time`, so the
previously stored token is returned without any refresh. -/
theorem get_token_boundary_cex :
    ((100 : ℚ) ≥ 100) ∧
    (get_token { token := some "tok", expiry_time := 100 } 100
      (some { status := 200, access_token := some "new", expires_in := some 3600 })).2.2
      = false ∧
    (get_token { token := some "tok", expiry_time := 100 } 100
      (some { status := 200, access_token := some "new", expires_in := some 3600 })).1
      = some "tok" := by
  refine ⟨le_refl _, ?_, ?_⟩ <;> norm_num [get_token]

/-- Claim C3 amended: `get_token` triggers a refresh exactly when the current
time is strictly greater than the recorded expiry threshold (`now > expiresAt`),
never earlier and not at equality; when no credential has ever been installed
(fresh manager whose initial refresh failed: token `None`, expiry `0`), any
call at positive current time performs a synchronous refresh before
returning. -/
theorem get_token_refresh_trigger (s : TMState) (now : ℚ)
    (resp : Option IamResponse) :
    ((get_token s now resp).2.2 = true ↔ now > s.expiry_time) ∧
    (∀ t0 : ℚ, 0 < now →
      (get_token (tokenManagerInit t0 none) now resp).2.2 = true) := by
  constructor
  · by_cases h : now > s.expiry_time <;> simp [get_token, h]
  · intro t0 h
    simp [tokenManagerInit, refresh_token, get_token, h]

/-- Witness for C3's amended theorem: at `now = 7` past an expiry of `5` the
refresh fires, and a fresh manager with a failed initial refresh refreshes on
the first call at `now = 7`. -/
theorem get_token_refresh_trigger_witness :
    (get_token { token := some "x", expiry_time := 5 } 7 none).2.2 = true ∧
    (get_token (tokenManagerInit 0 none) 7 none).2.2 = true :=
  ⟨(get_token_refresh_trigger { token := some "x", expiry_time := 5 } 7 none).1.mpr
      (by norm_num),
   (get_token_refresh_trigger (tokenManagerInit 0 none) 7 none).2 0 (by norm_num)⟩

/-- Claim C4: a refresh that fails — transport failure (no response) or any
non-200 status — returns `False` and leaves token and expiry unchanged; in
particular, after a valid token and a refresh answered HTTP 500, `get_token`
immediately afterwards (while still unexpired) returns the prior token. -/
theorem refresh_failure_preserves_credential :
    (∀ s now, refresh_token s now none = (false, s)) ∧
    (∀ s now r, r.status ≠ 200 → refresh_token s now (some r) = (false, s)) ∧
    (∀ tok exp now1 now2 r, r.status = 500 → now2 ≤ exp →
      (refresh_token { token := some tok, expiry_time := exp } now1 (some r)).2 =
        { token := some tok, expiry_time := exp } ∧
      (get_token (refresh_token { token := some tok, expiry_time := exp } now1
          (some r)).2 now2 none).1 = some tok) := by
  refine ⟨fun s now => rfl, ?_, ?_⟩
  · intro s now r h
    simp [refresh_token, h]
  · intro tok exp now1 now2 r h5 hle
    have h1 : refresh_token { token := some tok, expiry_time := exp } now1 (some r) =
        (false, { token := some tok, expiry_time := exp }) := by
      simp [refresh_token, h5]
    refine ⟨by rw [h1], ?_⟩
    rw [h1]
    simp [get_token, not_lt.mpr hle]

/-- Witness for C4: a concrete 500 answer at time 150 against a token expiring
at 3240 leaves the state intact and `get_token` still returns it. -/
theorem refresh_failure_preserves_credential_witness :
    refresh_token { token := some "prior", expiry_time := 3240 } 150 none =
      (false, { token := some "prior", expiry_time := 3240 }) ∧
    refresh_token { token := some "prior", expiry_time := 3240 } 150
      (some { status := 500, access_token := none, expires_in := none }) =
      (false, { token := some "prior", expiry_time := 3240 }) ∧
    (get_token (refresh_token { token := some "prior", expiry_time := 3240 } 150
      (some { status := 500, access_token := none, expires_in := none })).2
      150 none).1 = some "prior" :=
  ⟨refresh_failure_preserves_credential.1 _ 150,
   refresh_failure_preserves_credential.2.1 _ 150 _ (by norm_num),
   (refresh_failure_preserves_credential.2.2 "prior" 3240 150 150 _ rfl
     (by norm_num)).2⟩

/-- Claim C5: every successful refresh sets the expiry threshold to
`now + 0.9 * expires_in` (with `0.9` the exact rational `9/10`), and
`expires_in` defaults to 3600 seconds when the 200 response omits it. -/
theorem refresh_success_expiry :
    (∀ s now r, (refresh_token s now (some r)).1 = true →
      (refresh_token s now (some r)).2.expiry_time =
        now + (r.expires_in.getD 3600) * (9 / 10)) ∧
    (∀ s now r, r.status = 200 → r.expires_in = none →
      (refresh_token s now (some r)).2.expiry_time = now + 3600 * (9 / 10)) := by
  constructor
  · intro s now r h
    by_cases hs : r.status = 200
    · simp [refresh_token, hs]
    · simp [refresh_token, hs] at h
  · intro s now r hs he
    simp [refresh_token, hs, he]

/-- Witness for C5: a 200 answer with `expires_in = 100` at `now = 10` yields
expiry 100, and one omitting `expires_in` at `now = 0` yields 3240. -/
theorem refresh_success_expiry_witness :
    (refresh_token { token := none, expiry_time := 0 } 10
      (some { status := 200, access_token := some "t", expires_in := some 100 })).2.expiry_time
      = 100 ∧
    (refresh_token { token := none, expiry_time := 0 } 0
      (some { status := 200, access_token := some "t", expires_in := none })).2.expiry_time
      = 3240 := by
  constructor
  · rw [refresh_success_expiry.1 { token := none, expiry_time := 0 } 10
      { status := 200, access_token := some "t", expires_in := some 100 } (by norm_num [refresh_token])]
    norm_num
  · rw [refresh_success_expiry.2 { token := none, expiry_time := 0 } 0
      { status := 200, access_token := some "t", expires_in := none } rfl rfl]
    norm_num

/-- Counterexample to claim C6: a caller passing the empty-string system
prompt gets a request body WITHOUT the `system_prompt` field — the code's
`if system_prompt:` truthiness check drops the empty string, so omission and
empty string are not distinguishable. -/
theorem system_prompt_empty_dropped_cex :
    Option.map GenPayload.system_prompt
      (generate_text (some "tok") "p" (some "") none "sp"
        (some { status := 200, results := some [{ generated_text := some "out" }] })).2
      = some none :=
  rfl

/-- Claim C6 amended: the request body includes the `system_prompt` field
exactly when the caller provided a NON-EMPTY system prompt; the empty string
is treated like omission (Python truthiness), so both a caller passing none
and a caller passing `""` get a body without the field. -/
theorem system_prompt_included_iff_nonempty (t prompt : String)
    (sp : Option String) (params : Option GenParams) (sid : String)
    (resp : Option GenResponse) (ht : t ≠ "") :
    (generate_text (some t) prompt sp params sid resp).2 =
      some (buildPayload prompt sp params sid) ∧
    ((buildPayload prompt sp params sid).system_prompt = none ↔
      sp = none ∨ sp = some "") ∧
    (∀ s, sp = some s → s ≠ "" →
      (buildPayload prompt sp params sid).system_prompt = some s) := by
  refine ⟨?_, ?_, ?_⟩
  · cases resp with
    | none => simp [generate_text, ht]
    | some r =>
      by_cases hs : r.status = 200
      · simp only [generate_text, ht, if_neg ht, hs]
        cases hr : r.results.getD [{ generated_text := none }] with
        | nil => simp
        | cons item tl => simp
      · simp [generate_text, ht, hs]
  · cases sp with
    | none => simp [buildPayload]
    | some s =>
      by_cases hs : s = "" <;> simp [buildPayload, hs]
  · intro s hsp hne
    subst hsp
    simp [buildPayload, hne]

/-- Witness for C6's amended theorem: with token `"tok"`, a provided
`"be brief"` system prompt appears in the body and an omitted one does not. -/
theorem system_prompt_included_iff_nonempty_witness :
    (generate_text (some "tok") "p" (some "be brief") none "sp" none).2 =
      some (buildPayload "p" (some "be brief") none "sp") ∧
    (buildPayload "p" (some "be brief") none "sp").system_prompt =
      some "be brief" ∧
    (buildPayload "p" none none "sp").system_prompt = none :=
  ⟨(system_prompt_included_iff_nonempty "tok" "p" (some "be brief") none "sp"
      none (by decide)).1,
   (system_prompt_included_iff_nonempty "tok" "p" (some "be brief") none "sp"
      none (by decide)).2.2 "be brief" rfl (by decide),
   (system_prompt_included_iff_nonempty "tok" "p" none none "sp"
      none (by decide)).2.1.mpr (Or.inl rfl)⟩

/-- Counterexample to claim C7: two unparseable inputs of different lengths
produce the identical failure value — the fixed HTTP 500 detail string — so
the failure payload carries neither the original text's length nor a preview
of it, and it is raised (an exception), not returned. -/
theorem unparseable_fixed_payload_cex :
    extractRecording "x" =
      .error (.httpError "Failed to parse model response as JSON") ∧
    extractRecording "I cannot comply with this request." =
      .error (.httpError "Failed to parse model response as JSON") ∧
    ("x" : String).length ≠ ("I cannot comply with this request." : String).length :=
  ⟨rfl, rfl, by decide⟩

/-- Claim C7 amended: when no strategy applies, the extraction block raises
`HTTPException(500)` with the fixed detail `Failed to parse model response as
JSON` — a payload independent of the input, carrying neither its length nor a
preview; and when a tier-2 or tier-3 candidate substring is found but fails to
parse, the `json.JSONDecodeError` propagates uncaught instead.  Failure is
always reported by raising, never as a returned value. -/
theorem unparseable_fixed_detail :
    (∀ s, jsonLoads s = none → fencedGroup s.data = none →
      findTcStart s.data = none →
      extractRecording s =
        .error (.httpError "Failed to parse model response as JSON")) ∧
    (∀ s i, jsonLoads s = none → fencedGroup s.data = none →
      findTcStart s.data = some i → braceScan (s.data.drop i) 0 0 = none →
      extractRecording s =
        .error (.httpError "Failed to parse model response as JSON")) ∧
    (∀ s c, jsonLoads s = none → fencedGroup s.data = some c →
      jsonLoadsChars c = none →
      extractRecording s = .error .jsonDecodeError) ∧
    (∀ s i e, jsonLoads s = none → fencedGroup s.data = none →
      findTcStart s.data = some i → braceScan (s.data.drop i) 0 0 = some e →
      jsonLoadsChars ((s.data.drop i).take e) = none →
      extractRecording s = .error .jsonDecodeError) := by
  refine ⟨?_, ?_, ?_, ?_⟩
  · intro s h1 h2 h3
    simp [extractRecording, h1, h2, h3]
  · intro s i h1 h2 h3 h4
    simp [extractRecording, h1, h2, h3, h4]
  · intro s c h1 h2 h3
    simp [extractRecording, h1, h2, h3]
  · intro s i e h1 h2 h3 h4 h5
    simp [extractRecording, h1, h2, h3, h4, h5]

/-- Witness for C7's amended theorem: a braceless refusal gets the fixed HTTP
500 detail, a fenced block whose contents are not JSON propagates the decode
error, and so does a tier-3 substring truncated by a `\x7d` inside a string
literal (the scan closes at offset 17, leaving the unparseable
`\x7b"test_cases":["\x7d`). -/
theorem unparseable_fixed_detail_witness :
    extractRecording "I cannot comply with this request." =
      .error (.httpError "Failed to parse model response as JSON") ∧
    extractRecording "```json\nnot json at all\n```" =
      .error .jsonDecodeError ∧
    extractRecording "x \x7b\"test_cases\":[\"\x7d\"]\x7d" =
      .error .jsonDecodeError :=
  ⟨unparseable_fixed_detail.1 "I cannot comply with this request." rfl rfl rfl,
   unparseable_fixed_detail.2.2.1 "```json\nnot json at all\n```" _ rfl rfl rfl,
   unparseable_fixed_detail.2.2.2 "x \x7b\"test_cases\":[\"\x7d\"]\x7d" 2 17
     rfl rfl rfl rfl rfl⟩

/-- Claim C8: when the token manager yields no usable credential — `None` or
Python-falsy empty string — `generate_text` raises the no-token error before
building any request, so no payload is ever posted to the generation
endpoint. -/
theorem no_credential_no_request (prompt : String) (sp : Option String)
    (params : Option GenParams) (sid : String) (resp : Option GenResponse)
    (token : Option String) (h : token = none ∨ token = some "") :
    generate_text token prompt sp params sid resp = (.error .noToken, none) := by
  rcases h with h | h <;> subst h <;> simp [generate_text]

/-- Witness for C8: with no token at all, and with an empty-string token, the
call errors and issues no request. -/
theorem no_credential_no_request_witness :
    generate_text none "p" none none "sp"
      (some { status := 200, results := some [{ generated_text := some "out" }] }) =
      (.error .noToken, none) ∧
    generate_text (some "") "p" none none "sp"
      (some { status := 200, results := some [{ generated_text := some "out" }] }) =
      (.error .noToken, none) :=
  ⟨no_credential_no_request "p" none none "sp" _ none (Or.inl rfl),
   no_credential_no_request "p" none none "sp" _ (some "") (Or.inr rfl)⟩

/-- Helper: one `get_token` call keeps the stored token different from the
empty string, provided any 200 answer it consumes does not itself carry an
empty `access_token`. -/
theorem get_token_keeps_nonempty (s : TMState) (now : ℚ)
    (resp : Option IamResponse) (hs : s.token ≠ some "")
    (hr : ∀ r, resp = some r → r.access_token ≠ some "") :
    (get_token s now resp).2.1.token ≠ some "" := by
  by_cases h : now > s.expiry_time
  · cases resp with
    | none => simpa [get_token, h, refresh_token] using hs
    | some r =>
      by_cases hst : r.status = 200
      · simpa [get_token, h, refresh_token, hst] using hr r rfl
      · simpa [get_token, h, refresh_token, hst] using hs
  · simpa [get_token, h] using hs

/-- Counterexample to claim C9: if the identity endpoint answers 200 with
`access_token` equal to the empty string, the manager stores it, reports the
refresh successful, and `get_token` thereafter returns the empty string as
the token rather than surfacing unavailability. -/
theorem empty_token_exposed_cex :
    (get_token
      (tokenManagerInit 0
        (some { status := 200, access_token := some "", expires_in := some 3600 }))
      100 none).1 = some "" := by
  norm_num [tokenManagerInit, refresh_token, get_token]

/-- Claim C9 amended: the manager never fabricates a credential value — what
`get_token` returns is exactly the stored value, a 200 refresh response
lacking `access_token` stores `None` and `get_token` then surfaces `None`
(unavailable) while that state persists, and along any call trace in which no
200 response carries an empty `access_token`, the stored token is never the
empty string.  An empty string supplied by the endpoint itself is, however,
passed through to callers. -/
theorem token_value_provenance :
    (∀ s now r, r.status = 200 → r.access_token = none →
      (refresh_token s now (some r)).2.token = none ∧
      (∀ now2, now2 ≤ (refresh_token s now (some r)).2.expiry_time →
        (get_token (refresh_token s now (some r)).2 now2 none).1 = none)) ∧
    (∀ events s0, s0.token ≠ some "" →
      (∀ e ∈ events, ∀ r, e.2 = some r → r.access_token ≠ some "") →
      (runTrace s0 events).token ≠ some "") ∧
    (∀ s now resp, (get_token s now resp).1 = (get_token s now resp).2.1.token) := by
  refine ⟨?_, ?_, ?_⟩
  · intro s now r hst hat
    constructor
    · simp [refresh_token, hst, hat]
    · intro now2 hle
      have href : (refresh_token s now (some r)).2 =
          { token := none, expiry_time := now + (r.expires_in.getD 3600) * (9 / 10) } := by
        simp [refresh_token, hst, hat]
      rw [href]
      simp only [get_token]
      split <;> simp [refresh_token]
  · intro events
    induction events with
    | nil => intro s0 hs _; simpa [runTrace] using hs
    | cons e es ih =>
      intro s0 hs hr
      simp only [runTrace]
      exact ih _ (get_token_keeps_nonempty s0 e.1 e.2 hs
          (fun r h => hr e (List.mem_cons_self e es) r h))
        (fun e2 h2 r h => hr e2 (List.mem_cons_of_mem e h2) r h)
  · intro s now resp
    by_cases h : now > s.expiry_time <;> simp [get_token, h]

/-- Witness for C9's amended theorem: a 200 answer lacking `access_token`
leaves the value absent and `get_token` reports unavailability, a short
concrete trace with a non-empty issued token never stores the empty string,
and the returned value equals the stored one. -/
theorem token_value_provenance_witness :
    (refresh_token { token := some "old", expiry_time := 5 } 10
      (some { status := 200, access_token := none, expires_in := none })).2.token
      = none ∧
    (get_token (refresh_token { token := some "old", expiry_time := 5 } 10
      (some { status := 200, access_token := none, expires_in := none })).2
      20 none).1 = none ∧
    (runTrace { token := none, expiry_time := 0 }
      [(10, some { status := 200, access_token := some "abc", expires_in := some 3600 }),
       (20, none)]).token ≠ some "" ∧
    (get_token { token := some "t", expiry_time := 5 } 3 none).1 =
      (get_token { token := some "t", expiry_time := 5 } 3 none).2.1.token :=
  ⟨(token_value_provenance.1 { token := some "old", expiry_time := 5 } 10
      { status := 200, access_token := none, expires_in := none } rfl rfl).1,
   (token_value_provenance.1 { token := some "old", expiry_time := 5 } 10
      { status := 200, access_token := none, expires_in := none } rfl rfl).2
      20 (by norm_num [refresh_token]),
   token_value_provenance.2.1
      [(10, some { status := 200, access_token := some "abc", expires_in := some 3600 }),
       (20, none)]
      { token := none, expiry_time := 0 } (by simp)
      (by
        intro e he r h
        simp only [List.mem_cons, List.not_mem_nil, or_false] at he
        rcases he with rfl | rfl
        · injection h with h2
          subst h2
          decide
        · exact Option.noConfusion h),
   token_value_provenance.2.2 { token := some "t", expiry_time := 5 } 3 none⟩

/-- Claim C10: with a 200 answer, an empty `results` list makes
`generate_text` raise (indexing `results[0]` fails) rather than return the
empty string; the empty-string fallback applies exactly when the `results`
key is absent (the default `[\x7b\x7d]` supplies an element without
`generated_text`) or when `results[0]` lacks the `generated_text` field. -/
theorem empty_results_raises (t prompt : String) (sp : Option String)
    (params : Option GenParams) (sid : String) (r : GenResponse)
    (ht : t ≠ "") (hst : r.status = 200) :
    (r.results = some [] →
      (generate_text (some t) prompt sp params sid (some r)).1 =
        .error .indexError) ∧
    (r.results = none →
      (generate_text (some t) prompt sp params sid (some r)).1 = .ok "") ∧
    (∀ item tl, r.results = some (item :: tl) → item.generated_text = none →
      (generate_text (some t) prompt sp params sid (some r)).1 = .ok "") := by
  refine ⟨?_, ?_, ?_⟩
  · intro h
    simp [generate_text, ht, hst, h]
  · intro h
    simp [generate_text, ht, hst, h]
  · intro item tl h hgt
    simp [generate_text, ht, hst, h, hgt]

/-- Witness for C10: concrete 200 responses with `results = []` (raises),
no `results` key (empty string), and a first item lacking `generated_text`
(empty string). -/
theorem empty_results_raises_witness :
    (generate_text (some "tok") "p" none none "sp"
      (some { status := 200, results := some [] })).1 = .error .indexError ∧
    (generate_text (some "tok") "p" none none "sp"
      (some { status := 200, results := none })).1 = .ok "" ∧
    (generate_text (some "tok") "p" none none "sp"
      (some { status := 200, results := some [{ generated_text := none }] })).1 =
      .ok "" :=
  ⟨(empty_results_raises "tok" "p" none none "sp"
      { status := 200, results := some [] } (by decide) rfl).1 rfl,
   (empty_results_raises "tok" "p" none none "sp"
      { status := 200, results := none } (by decide) rfl).2.1 rfl,
   (empty_results_raises "tok" "p" none none "sp"
      { status := 200, results := some [{ generated_text := none }] }
      (by decide) rfl).2.2 { generated_text := none } [] rfl rfl⟩
